import Mathlib

/-!
Verification development for the skill-validator program
(`meta/skill-tester/scripts/test_skill.py`).

The program validates an "agent skill" directory: it checks that the
directory and its `SKILL.md` exist, splits `SKILL.md` into YAML
frontmatter and body with the regex
`^---\s*\n(.*?)\n---\s*\n(.*)$` (DOTALL), runs a catalog of rule checks
over the decoded frontmatter and the body, scans the body for local file
references and checks their existence, and renders a report with a
pass / pass-with-warnings / fail verdict and a matching exit code.

This file gives a shallow embedding of that program: Python strings become
`String` / `List Char`, the specific regexes used by the program are
implemented directly with their backtracking semantics, the mutable
`errors` / `warnings` / `passes` lists of the `SkillValidator` object
become an explicit `VState` record threaded through the checks, the
filesystem becomes an explicit `FS` record of predicates, and the one
place the program can raise past a rule boundary
(`_validate_description`) is modelled with `Except`.
-/

/-- Python's `\s` whitespace class (also the class used by `str.strip()`
and `str.split()`): space, tab, newline, carriage return, vertical tab,
form feed. -/
def isPySpace (c : Char) : Bool :=
  c = ' ' || c = '\t' || c = '\n' || c = '\r' || c = '\x0b' || c = '\x0c'

/-- Python `str.strip()` on a char list. -/
def pyStripL (cs : List Char) : List Char :=
  ((cs.dropWhile isPySpace).reverse.dropWhile isPySpace).reverse

/-- Python `str.strip()`. -/
def pyStrip (s : String) : String := String.mk (pyStripL s.data)

/-- Helper for `pySplit`: accumulates the current word (reversed). -/
def pySplitGo (word : List Char) : List Char → List (List Char)
  | [] => if word.isEmpty then [] else [word.reverse]
  | c :: cs =>
    if isPySpace c then
      if word.isEmpty then pySplitGo [] cs else word.reverse :: pySplitGo [] cs
    else pySplitGo (c :: word) cs

/-- Python `str.split()` with no argument: split on whitespace runs,
discarding empty tokens. -/
def pySplit (s : String) : List (List Char) := pySplitGo [] s.data

/-- Python `pat in hay` substring test, on char lists. -/
def listInfix (pat : List Char) : List Char → Bool
  | [] => pat.isEmpty
  | c :: cs => pat.isPrefixOf (c :: cs) || listInfix pat cs

/-- Python `pat in hay` substring test on strings. -/
def strContains (hay pat : String) : Bool := listInfix pat.data hay.data

/-- ASCII lower-casing of a char list (all inputs in this development are
ASCII, where Python `str.lower()` agrees with `Char.toLower`). -/
def toLowerL (cs : List Char) : List Char := cs.map Char.toLower

/-! ## The frontmatter regex

`_parse_skill_md` matches `re.match(r"^---\s*\n(.*?)\n---\s*\n(.*)$",
content, re.DOTALL)`.  The implementation below mirrors the backtracking
semantics of that anchored match:

* `\s*\n` (after either `---`) can end at any newline inside the maximal
  leading whitespace run; the greedy attempt ends at the *last* such
  newline and backtracks towards earlier ones.  `wsNlCandidates` lists the
  remainders for every possible end, greediest first.
* the non-greedy `(.*?)` (with DOTALL, so it crosses lines) stops at the
  *earliest* position where `\n---\s*\n` matches (`findClose`).
* the trailing `(.*)$` always succeeds and captures the whole remainder,
  so the inner `\s*\n` of the closing delimiter keeps its greedy (first)
  candidate and never backtracks.
-/

/-- Remainders after every way `\s*\n` can match a prefix of `cs`,
greediest (longest match) first.  Empty when `\s*\n` cannot match. -/
def wsNlCandidates : List Char → List (List Char)
  | [] => []
  | c :: cs =>
    if c = '\n' then wsNlCandidates cs ++ [cs]
    else if isPySpace c then wsNlCandidates cs
    else []

/-- Does `\n---\s*\n` match at the head of `cs`?  If so, return the body
remainder chosen by the greedy `\s*` (its first candidate). -/
def closeAt (cs : List Char) : Option (List Char) :=
  if cs.take 4 = ['\n', '-', '-', '-'] then
    match wsNlCandidates (cs.drop 4) with
    | tail :: _ => some tail
    | [] => none
  else none

/-- Is there any position in `cs` where the closing delimiter
`\n---\s*\n` matches? -/
def hasCloser : List Char → Bool
  | [] => false
  | c :: cs => (closeAt (c :: cs)).isSome || hasCloser cs

/-- Scan for the earliest closing-delimiter position (the non-greedy
`(.*?)`); `accRev` holds the frontmatter text seen so far, reversed.
Returns `(group 1, group 2)` = (frontmatter text, body). -/
def findClose (accRev : List Char) : List Char → Option (String × String)
  | [] => none
  | c :: cs =>
    match closeAt (c :: cs) with
    | some tail => some (String.mk accRev.reverse, String.mk tail)
    | none => findClose (c :: accRev) cs

/-- Try the opening delimiter's `\s*\n` candidates, greediest first. -/
def firstClose : List (List Char) → Option (String × String)
  | [] => none
  | cand :: cands =>
    match findClose [] cand with
    | some r => some r
    | none => firstClose cands

/-- `re.match(r"^---\s*\n(.*?)\n---\s*\n(.*)$", content, re.DOTALL)`:
`none` when the match fails, otherwise `some (frontmatter text, body)`. -/
def parseFrontmatterRegex (content : String) : Option (String × String) :=
  match content.data with
  | '-' :: '-' :: '-' :: rest => firstClose (wsNlCandidates rest)
  | _ => none

/-! ## The skill-name regex

`_validate_skill_name` checks `re.match(r"^[a-z0-9]+(-[a-z0-9]+)*$",
name)`: one or more lowercase-alphanumeric segments joined by single
hyphens.  Python's `$` (without `re.MULTILINE`) also matches just before
a single trailing newline. -/

/-- The class `[a-z0-9]`. -/
def isLowerAlnum (c : Char) : Bool :=
  ('a' ≤ c && c ≤ 'z') || ('0' ≤ c && c ≤ '9')

/-- `[a-z0-9]+(-[a-z0-9]+)*` against the whole list. -/
def hyphenSegsOk (cs : List Char) : Bool :=
  (cs.splitOn '-').all (fun s => !s.isEmpty && s.all isLowerAlnum)

/-- `re.match(r"^[a-z0-9]+(-[a-z0-9]+)*$", name)` as a boolean; the
second disjunct reflects `$` matching before one trailing newline. -/
def nameFormatMatch (name : String) : Bool :=
  hyphenSegsOk name.data ||
    (match name.data.getLast? with
     | some '\n' => hyphenSegsOk name.data.dropLast
     | _ => false)

/-! ## The credential-scan regexes

`_validate_body_content` runs, for each of four patterns,
`re.search(pattern, body, re.IGNORECASE)` and appends **one** warning if
the search succeeds.  The patterns are
`password\s*[:=]\s*['\"].*['\"]`, `api[_-]?key\s*[:=]\s*['\"].*['\"]`,
`secret\s*[:=]\s*['\"].*['\"]`, `token\s*[:=]\s*['\"].*['\"]`.
Without DOTALL the `.*` between the quotes stays on one line. -/

/-- The four credential patterns, in the order of the source list. -/
inductive CredPat
  | password
  | apikey
  | secret
  | token
deriving DecidableEq

def credPatterns : List CredPat :=
  [CredPat.password, CredPat.apikey, CredPat.secret, CredPat.token]

/-- The literal regex source text, as interpolated into the warning
message by the program. -/
def patSrc : CredPat → String
  | CredPat.password => ("password\\s*[:=]\\s*['\\\"].*['\\\"]")
  | CredPat.apikey => ("api[_-]?key\\s*[:=]\\s*['\\\"].*['\\\"]")
  | CredPat.secret => ("secret\\s*[:=]\\s*['\\\"].*['\\\"]")
  | CredPat.token => ("token\\s*[:=]\\s*['\\\"].*['\\\"]")

/-- Case-insensitive literal prefix test (`pat` given in lowercase). -/
def ciPrefixEq (pat : String) (cs : List Char) : Bool :=
  toLowerL (cs.take pat.length) = pat.data

/-- Length consumed by the keyword part of a credential pattern at the
head of `cs` (case-insensitive); `api[_-]?key` tries the separator
greedily. -/
def kwMatchLen : CredPat → List Char → Option Nat
  | CredPat.password, cs => if ciPrefixEq ("password") cs then some 8 else none
  | CredPat.secret, cs => if ciPrefixEq ("secret") cs then some 6 else none
  | CredPat.token, cs => if ciPrefixEq ("token") cs then some 5 else none
  | CredPat.apikey, cs =>
    if ciPrefixEq ("api") cs then
      match cs.drop 3 with
      | c :: rest2 =>
        if (c = '_' || c = '-') && ciPrefixEq ("key") rest2 then some 7
        else if ciPrefixEq ("key") (c :: rest2) then some 6
        else none
      | [] => none
    else none

/-- The quote class `['\"]`. -/
def quoteChar (c : Char) : Bool := c = '\'' || c = '\"'

/-- Index of the last quote char in `line`, if any (the greedy `.*`
extends to the last quote on the line). -/
def lastQuoteIdx (line : List Char) : Option Nat :=
  (line.reverse.findIdx? quoteChar).map (fun r => line.length - 1 - r)

/-- Full length of a credential-pattern match starting at the head of
`cs`, with the greedy extents Python would take; `none` if no match
starts here.  `\s*` runs are maximal (the following `[:=]` / quote is
never whitespace, so backtracking cannot change them), and the final
`.*['\"]` ends at the last quote before the next newline. -/
def credSuffixLen (p : CredPat) (cs : List Char) : Option Nat :=
  match kwMatchLen p cs with
  | none => none
  | some k =>
    let cs1 := cs.drop k
    let w1 := (cs1.takeWhile isPySpace).length
    match cs1.drop w1 with
    | c :: cs2 =>
      if c = ':' || c = '=' then
        let w2 := (cs2.takeWhile isPySpace).length
        match cs2.drop w2 with
        | q :: cs3 =>
          if quoteChar q then
            match lastQuoteIdx (cs3.takeWhile (fun d => d ≠ '\n')) with
            | some j => some (k + w1 + 1 + w2 + 1 + j + 1)
            | none => none
          else none
        | [] => none
      else none
    | [] => none

/-- `re.search(pattern, body, re.IGNORECASE)` as a boolean: does the
pattern match starting at some position? -/
def credSearch (p : CredPat) (body : String) : Bool :=
  body.data.tails.any (fun t => (credSuffixLen p t).isSome)

/-- Number of `re.finditer`-style non-overlapping matches of a credential
pattern (leftmost match, continue after its greedy end).  The fuel is the
list length; every step consumes at least one char. -/
def credFindAux (p : CredPat) : Nat → List Char → Nat
  | 0, _ => 0
  | _, [] => 0
  | fuel + 1, c :: cs =>
    match credSuffixLen p (c :: cs) with
    | some n => 1 + credFindAux p fuel ((c :: cs).drop (max n 1))
    | none => credFindAux p fuel cs

/-- Number of distinct (non-overlapping) matches of a credential pattern
in the body. -/
def credMatchCount (p : CredPat) (body : String) : Nat :=
  credFindAux p body.data.length body.data

/-! ## The file-reference extraction regexes

`_validate_file_references` runs `re.finditer` for five patterns:
markdown links `\[(.*?)\]\(((?!http)[^\)]+)\)` and inline code spans
`` `(scripts/[^`]+)` `` (likewise `templates/`, `assets/`,
`references/`).  For *every* pattern the program takes `match.group(1)`
(the conditional at line 212 has identical branches), so for markdown
links it collects the **label**, not the target. -/

/-- Match the target part `((?!http)[^\)]+)\)` at the head of `cs`
(the text just after `](`): `none` on failure, otherwise the captured
target and the length consumed (target plus closing paren). -/
def mdTargetAt (cs : List Char) : Option (String × Nat) :=
  if ("http").data.isPrefixOf cs then none
  else
    let run := cs.takeWhile (fun c => c ≠ ')')
    if run.isEmpty then none
    else
      match cs.drop run.length with
      | ')' :: _ => some (String.mk run, run.length + 1)
      | _ => none

/-- Scan for the end of the non-greedy label `(.*?)`: at each `](` try
the target; on failure the label absorbs more chars (`.` does not match
a newline; on a failed `](` both chars join the label, since the next
`](` can only start later).  Returns `(label, target, length after the
opening bracket)`. -/
def mdLabelLoop (labelRev : List Char) : List Char → Option (String × String × Nat)
  | ']' :: '(' :: rest =>
    (match mdTargetAt rest with
     | some (t, tlen) =>
       some (String.mk labelRev.reverse, t, labelRev.length + 2 + tlen)
     | none => mdLabelLoop ('(' :: ']' :: labelRev) rest)
  | c :: rest => if c = '\n' then none else mdLabelLoop (c :: labelRev) rest
  | [] => none

/-- Match `\[(.*?)\]\(((?!http)[^\)]+)\)` at the head of `cs`:
`(label, target, total length)`. -/
def mdLinkAt : List Char → Option (String × String × Nat)
  | '[' :: rest =>
    match mdLabelLoop [] rest with
    | some (label, t, n) => some (label, t, n + 1)
    | none => none
  | _ => none

/-- `re.finditer` for the markdown-link pattern: leftmost matches,
continuing after each match end. -/
def mdFindAux : Nat → List Char → List (String × String)
  | 0, _ => []
  | _, [] => []
  | fuel + 1, c :: cs =>
    match mdLinkAt (c :: cs) with
    | some (label, t, n) => (label, t) :: mdFindAux fuel ((c :: cs).drop (max n 1))
    | none => mdFindAux fuel cs

/-- All markdown-link matches in the body, as (group 1 = label,
group 2 = target) pairs in match order. -/
def mdLinks (body : String) : List (String × String) :=
  mdFindAux body.data.length body.data

/-- Match `` `(pre[^`]+)` `` at the head of `cs` for a fixed literal
prefix `pre`: the captured group (prefix plus the nonempty non-backtick
run) and the total length. -/
def codeRefAt (pre : List Char) (cs : List Char) : Option (String × Nat) :=
  match cs with
  | '`' :: rest =>
    if pre.isPrefixOf rest then
      let rest2 := rest.drop pre.length
      let run := rest2.takeWhile (fun c => c ≠ '`')
      if run.isEmpty then none
      else
        match rest2.drop run.length with
        | '`' :: _ => some (String.mk (pre ++ run), pre.length + run.length + 2)
        | _ => none
    else none
  | _ => none

/-- `re.finditer` for one inline-code pattern. -/
def codeFindAux (pre : List Char) : Nat → List Char → List String
  | 0, _ => []
  | _, [] => []
  | fuel + 1, c :: cs =>
    match codeRefAt pre (c :: cs) with
    | some (r, n) => r :: codeFindAux pre fuel ((c :: cs).drop (max n 1))
    | none => codeFindAux pre fuel cs

/-- All matches of `` `(pre[^`]+)` `` in the body, in match order. -/
def codeRefs (pre : String) (body : String) : List String :=
  codeFindAux pre.data body.data.length body.data

/-- One step of building the `referenced_files` set: strip the raw
reference, drop empty and `http`-prefixed ones, and add it if new.  The
Python `set` is modelled as a duplicate-free list in insertion order;
its (unspecified) iteration order is applied separately. -/
def addRef (acc : List String) (raw : String) : List String :=
  let r := pyStrip raw
  if r ≠ ("") && !(("http").data.isPrefixOf r.data) && !(acc.contains r) then acc ++ [r]
  else acc

/-- The contents of `referenced_files` after the extraction loops: for
every pattern in source order, every `match.group(1)` — which for
markdown links is the **label** (source line 212 takes group 1 in both
branches of its conditional). -/
def referencedFiles (body : String) : List String :=
  ((mdLinks body).map Prod.fst
      ++ codeRefs ("scripts/") body ++ codeRefs ("templates/") body
      ++ codeRefs ("assets/") body ++ codeRefs ("references/") body).foldl
    addRef []

/-! ## Data model: YAML values, validator state, filesystem

The frontmatter texts appearing in this repository's skills (and in this
development) are flat scalar mappings, so YAML values are modelled as
strings and integers and a decoded frontmatter as an association list in
document order.  The mutable `errors` / `warnings` / `passes` lists of
`SkillValidator` become the record `VState`; each `append` becomes a
snoc.  The filesystem queried by `Path.exists` / `is_dir` / `is_file` /
`read_text` becomes the record `FS` (paths are component lists; a
reference string is resolved as one extra component, the `FS` being
abstract about separators inside a component). -/

inductive Yaml
  | str (s : String)
  | int (n : Int)
deriving DecidableEq, Repr

/-- Is the value a Python `str` (`isinstance(v, str)`)? -/
def Yaml.isStr : Yaml → Bool
  | Yaml.str _ => true
  | Yaml.int _ => false

/-- How an f-string renders the value (`str(v)`). -/
def yamlRepr : Yaml → String
  | Yaml.str s => s
  | Yaml.int n => toString n

/-- Python `v == d` for a YAML value against a `str`: values of another
type never equal a string. -/
def yamlEqStr (v : Yaml) (d : String) : Bool :=
  match v with
  | Yaml.str s => s = d
  | Yaml.int _ => false

/-- A decoded frontmatter mapping. -/
def Frontmatter := List (String × Yaml)
deriving instance DecidableEq for Frontmatter

instance : Repr Frontmatter := inferInstanceAs (Repr (List (String × Yaml)))

/-- Python `fm[k]` / `k in fm`. -/
def lookupFm (fm : Frontmatter) (k : String) : Option Yaml :=
  match fm.find? (fun kv => kv.1 = k) with
  | some kv => some kv.2
  | none => none

/-- The `errors` / `warnings` / `passes` lists of a `SkillValidator`,
in append order. -/
structure VState where
  errors : List String
  warnings : List String
  passes : List String
deriving DecidableEq, Repr

/-- The fresh state of `SkillValidator.__init__`. -/
def st0 : VState := ⟨[], [], []⟩

def addErr (st : VState) (m : String) : VState :=
  { st with errors := st.errors ++ [m] }

def addWarn (st : VState) (m : String) : VState :=
  { st with warnings := st.warnings ++ [m] }

def addPass (st : VState) (m : String) : VState :=
  { st with passes := st.passes ++ [m] }

/-- The filesystem as seen through `pathlib`: existence, directory and
file tests, and UTF-8 reads (`Except.error` models `read_text` raising,
carrying the exception's message). -/
structure FS where
  pathExists : List String → Bool
  isDir : List String → Bool
  isFile : List String → Bool
  readFile : List String → Except String String

/-- `pathlib.Path.name`: the last path component. -/
def dirName (sp : List String) : String := (sp.getLast?).getD ("")

/-- `str(path)` as interpolated into messages. -/
def pathStr (sp : List String) : String := String.intercalate ("/") sp

/-! ## Modelled yaml.safe_load

`yaml.safe_load` on the frontmatter block.  Modelled for the texts this
development feeds it: a text whose lines are all blank or `#`-comments
decodes to null (`None`), and otherwise every line must be a flat
`key: value` pair with a scalar value (an unquoted all-digit scalar is
an `int`, anything else a `str`).  Texts outside this fragment are mapped
to a decode error; no theorem below depends on them. -/
def splitOnCharGo (sep : Char) (cur : List Char) : List Char → List (List Char)
  | [] => [cur.reverse]
  | c :: cs =>
    if c = sep then cur.reverse :: splitOnCharGo sep [] cs
    else splitOnCharGo sep (c :: cur) cs

/-- Value of an all-digit scalar. -/
def digitsVal (cs : List Char) : Nat :=
  cs.foldl (fun n c => n * 10 + (c.toNat - ('0').toNat)) 0

def safeLoad (s : String) : Except String (Option Frontmatter) :=
  let ls := (splitOnCharGo '\n' [] s.data).filter
    (fun l => pyStripL l ≠ [] && !(['#'].isPrefixOf (pyStripL l)))
  if ls.isEmpty then Except.ok none
  else
    let parsed := ls.map (fun l =>
      match splitOnCharGo ':' [] l with
      | [k, v] =>
        let v := pyStripL v
        if v ≠ [] && v.all Char.isDigit then
          some (String.mk (pyStripL k), Yaml.int (digitsVal v : Nat))
        else some (String.mk (pyStripL k), Yaml.str (String.mk v))
      | _ => none)
    if parsed.all Option.isSome then Except.ok (some (parsed.filterMap id))
    else Except.error ("unmodelled frontmatter text")

/-! ## The validator checks (`SkillValidator` methods) -/

/-- `_check_directory_exists`. -/
def checkDirectoryExists (fs : FS) (sp : List String) (st : VState) : VState :=
  if !(fs.pathExists sp) then
    addErr st (("Directory does not exist: ") ++ pathStr sp)
  else if !(fs.isDir sp) then
    addErr st (("Path is not a directory: ") ++ pathStr sp)
  else
    addPass st (("Directory exists: ") ++ pathStr sp)

/-- `_check_skill_md_exists`. -/
def checkSkillMdExists (fs : FS) (sp : List String) (st : VState) : VState :=
  if !(fs.pathExists (sp ++ [("SKILL.md")])) then
    addErr st ("SKILL.md file not found (case-sensitive)")
  else if !(fs.isFile (sp ++ [("SKILL.md")])) then
    addErr st ("SKILL.md exists but is not a file")
  else
    addPass st ("SKILL.md file exists")

/-- Result of `_parse_skill_md`: the decoded frontmatter (`none` both on
failure and when YAML decoded to null — Python returns `None` in both
cases), the body, and the updated state. -/
structure ParseOut where
  frontmatter : Option Frontmatter
  body : Option String
  st : VState
deriving DecidableEq, Repr

/-- The pure part of `_parse_skill_md` after a successful read. -/
def parseContent (content : String) (st : VState) : ParseOut :=
  match parseFrontmatterRegex content with
  | none =>
    ⟨none, none, addErr st ("SKILL.md missing YAML frontmatter (must start with ---)")⟩
  | some (fmText, body) =>
    match safeLoad fmText with
    | Except.ok fm => ⟨fm, some body, addPass st ("YAML frontmatter is valid")⟩
    | Except.error e => ⟨none, some body, addErr st (("Invalid YAML frontmatter: ") ++ e)⟩

/-- `_parse_skill_md`. -/
def parseSkillMd (fs : FS) (path : List String) (st : VState) : ParseOut :=
  match fs.readFile path with
  | Except.error e => ⟨none, none, addErr st (("Failed to read SKILL.md: ") ++ e)⟩
  | Except.ok content => parseContent content st

/-- The required-field loop of `_validate_yaml_frontmatter`. -/
def requiredFieldCheck (fm : Frontmatter) (st : VState) (field : String) : VState :=
  if (lookupFm fm field).isSome then
    addPass st (("Required field present: '") ++ field ++ ("'"))
  else
    addErr st (("Missing required field in YAML: '") ++ field ++ ("'"))

/-- `_validate_skill_name` (only ever called with a string name). -/
def validateSkillName (name : String) (st : VState) : VState :=
  let st :=
    if name.length > 64 then
      addErr st (("Skill name exceeds 64 characters: ") ++ toString name.length)
    else st
  if !(nameFormatMatch name) then
    addErr st (("Skill name must be hyphen-case (lowercase, hyphens only): '")
      ++ name ++ ("'"))
  else
    addPass st (("Skill name format is valid: '") ++ name ++ ("'"))

/-- `_validate_yaml_frontmatter`: required fields, then the `name` type
gate (non-strings get an error and skip `_validate_skill_name`), then
the `description` type/length chain. -/
def validateYamlFrontmatter (fm : Frontmatter) (st : VState) : VState :=
  let st := requiredFieldCheck fm st ("name")
  let st := requiredFieldCheck fm st ("description")
  let st :=
    match lookupFm fm ("name") with
    | some (Yaml.str n) => validateSkillName n st
    | some _ => addErr st ("Field 'name' must be a string")
    | none => st
  match lookupFm fm ("description") with
  | some (Yaml.str d) =>
    if d.length > 1024 then
      addErr st (("Description exceeds 1024 characters (") ++ toString d.length ++ (" chars)"))
    else if d.length > 200 then
      addWarn st (("Description is ") ++ toString d.length ++ (" chars (recommended ~200)"))
    else
      addPass st (("Description length appropriate (") ++ toString d.length ++ (" chars)"))
  | some _ => addErr st ("Field 'description' must be a string")
  | none => st

/-- `_validate_name_matching`: compares the YAML value (of any type)
against the directory name with Python `!=`. -/
def validateNameMatching (sp : List String) (fm : Frontmatter) (st : VState) : VState :=
  match lookupFm fm ("name") with
  | none => st
  | some v =>
    if !(yamlEqStr v (dirName sp)) then
      addErr st (("Directory name '") ++ dirName sp
        ++ ("' does not match YAML name '") ++ yamlRepr v ++ ("'"))
    else
      addPass st (("Directory name matches YAML name: '") ++ yamlRepr v ++ ("'"))

/-- The cue-phrase list of `_validate_description`. -/
def whenIndicators : List String :=
  [("when"), ("use when"), ("for"), ("to help"), ("if you need")]

/-- `_validate_description`: calls `.lower()` on the raw value, which
raises `AttributeError` when the value is not a string — modelled as
`Except.error` escaping the rule. -/
def validateDescription (fm : Frontmatter) (st : VState) : Except String VState :=
  match lookupFm fm ("description") with
  | none => Except.ok st
  | some (Yaml.str s) =>
    let d := String.mk (toLowerL s.data)
    if whenIndicators.any (fun w => strContains d w) then
      Except.ok (addPass st ("Description explains when to use the skill"))
    else
      Except.ok (addWarn st
        ("Description should explain WHEN to use the skill (contains no 'when' indicators)"))
  | some _ => Except.error ("AttributeError: object has no attribute lower")

/-- The word-count message pair and credential loop of
`_validate_body_content`. -/
def credMsg (p : CredPat) : String :=
  ("Possible hardcoded credential detected (pattern: ") ++ patSrc p ++ (")")

/-- `len(body.split())`. -/
def wordCount (body : String) : Nat := (pySplit body).length

/-- `_validate_body_content`. -/
def validateBodyContent (body : String) (st : VState) : VState :=
  let wc := wordCount body
  let st :=
    if wc > 5000 then
      addWarn st (("SKILL.md body has ") ++ toString wc ++ (" words (recommended <5,000)"))
    else
      addPass st (("SKILL.md body has ") ++ toString wc ++ (" words (<5,000)"))
  credPatterns.foldl (fun s p => if credSearch p body then addWarn s (credMsg p) else s) st

/-- The existence loop of `_validate_file_references`, over the
reference set in a given iteration order. -/
def checkReferences (fs : FS) (sp : List String) (refs : List String)
    (st : VState) : VState :=
  refs.foldl (fun s r =>
    if !(fs.pathExists (sp ++ [r])) then
      addErr s (("Referenced file does not exist: ") ++ r)
    else
      addPass s (("Referenced file exists: ") ++ r)) st

/-! ## The validation pipeline (`SkillValidator.validate`) and report

`validate` runs the existence checks, returns `False` early when the
directory or `SKILL.md` is absent, parses, runs the frontmatter rules
when the frontmatter is not `None`, runs the body rules when the body is
not `None`, and returns `len(self.errors) == 0`.  The iteration order of
the Python `set` of references is not determined by the source text, so
the pipeline takes it as a parameter `enum` (any enumeration of the
extracted reference list); `main` exits with `0 if is_valid else 1`. -/

/-- The metadata-rule block guarded by `if frontmatter is not None`
(`_validate_yaml_frontmatter`, `_validate_name_matching`,
`_validate_description` in that order); `_validate_description` can
raise. -/
def validateMeta (sp : List String) (fm : Option Frontmatter) (st : VState) :
    Except String VState :=
  match fm with
  | none => Except.ok st
  | some f => validateDescription f (validateNameMatching sp f (validateYamlFrontmatter f st))

/-- The body-rule block guarded by `if body is not None`
(`_validate_body_content` then `_validate_file_references`). -/
def bodyStep (fs : FS) (sp : List String) (enum : List String → List String)
    (body : Option String) (st4 : VState) : VState :=
  match body with
  | some b =>
    checkReferences fs sp (enum (referencedFiles b)) (validateBodyContent b st4)
  | none => st4

/-- `SkillValidator.validate` for the skill directory `sp`, returning the
final finding lists and the boolean result; `Except.error` is an
exception escaping `validate` (the program then dies with a traceback
and never prints a report). -/
def runValidator (fs : FS) (sp : List String) (enum : List String → List String) :
    Except String (VState × Bool) :=
  let st1 := checkDirectoryExists fs sp st0
  let st2 := checkSkillMdExists fs sp st1
  if !(fs.pathExists sp) || !(fs.pathExists (sp ++ [("SKILL.md")])) then
    Except.ok (st2, false)
  else
    let pr := parseSkillMd fs (sp ++ [("SKILL.md")]) st2
    (validateMeta sp pr.frontmatter pr.st).map (fun st4 =>
      let st5 := bodyStep fs sp enum pr.body st4
      (st5, st5.errors.isEmpty))

/-- `sys.exit(0 if is_valid else 1)` in `main`. -/
def exitCode (isValid : Bool) : Nat := if isValid then 0 else 1

/-- The `RESULT:` line chosen by `print_report`. -/
def resultLine (st : VState) : String :=
  if !st.errors.isEmpty then ("RESULT: FAILED - Fix errors before using this skill")
  else if !st.warnings.isEmpty then
    ("RESULT: PASSED with warnings - Consider addressing warnings")
  else ("RESULT: PASSED - Skill is valid")

/-- The 60-character separator line. -/
def eqLine : String := String.mk (List.replicate 60 '=')

/-- One severity block of `print_report` (header with count, one
indented line per message, and a blank line), empty when there are no
messages. -/
def sectionBlock (header : String) (mark : String) (msgs : List String) : String :=
  if msgs.isEmpty then ("")
  else
    header ++ (" (") ++ toString msgs.length ++ (")\n")
      ++ String.join (msgs.map (fun m => ("  ") ++ mark ++ (" ") ++ m ++ ("\n")))
      ++ ("\n")

/-- The full text printed by `print_report` (each `print` contributes its
argument plus a newline). -/
def renderReport (sp : List String) (st : VState) : String :=
  ("\n") ++ eqLine ++ ("\n")
    ++ ("Skill Validation Report: ") ++ dirName sp ++ ("\n")
    ++ eqLine ++ ("\n\n")
    ++ sectionBlock ("✓ PASSED") ("✓") st.passes
    ++ sectionBlock ("⚠ WARNINGS") ("⚠") st.warnings
    ++ sectionBlock ("✗ FAILED") ("✗") st.errors
    ++ eqLine ++ ("\n")
    ++ resultLine st ++ ("\n")
    ++ eqLine ++ ("\n\n")

/-- Modelled from the spec (§3, ValidationReport): the verdict as a pure
function of the findings' severities — Error if any Error finding
exists, Warning if any Warning finding and no Error, Pass otherwise.
(Used to compare the spec's verdict notion with the program's report and
exit wiring.) -/
inductive Severity
  | pass
  | warning
  | error
deriving DecidableEq

/-- Modelled from the spec (§3): the derived verdict of a report. -/
def specVerdict (st : VState) : Severity :=
  if !st.errors.isEmpty then Severity.error
  else if !st.warnings.isEmpty then Severity.warning
  else Severity.pass

/-! ## Concrete fixtures

Small concrete skill directories used by the witness and counterexample
theorems below. -/

/-- A filesystem with a directory `sp` containing only `SKILL.md` with
content `c` (and nothing else). -/
def fsWith (sp : List String) (c : String) : FS where
  pathExists := fun p => p = sp || p = sp ++ [("SKILL.md")]
  isDir := fun p => p = sp
  isFile := fun p => p = sp ++ [("SKILL.md")]
  readFile := fun p =>
    if p = sp ++ [("SKILL.md")] then Except.ok c
    else Except.error ("No such file or directory")

/-- A filesystem with nothing in it. -/
def fsEmpty : FS where
  pathExists := fun _ => false
  isDir := fun _ => false
  isFile := fun _ => false
  readFile := fun _ => Except.error ("No such file or directory")

/-- A well-formed skill: name matches the directory, description short
with a cue phrase, tiny body without references. -/
def contentOk : String :=
  ("---\nname: my-skill\ndescription: Use for testing things\n---\nA tiny body.")

/-- A skill whose `description` is YAML-decoded to an `int`. -/
def contentBadDesc : String :=
  ("---\nname: my-skill\ndescription: 42\n---\nSome body.")

/-- A skill whose frontmatter block is whitespace only, so that
`yaml.safe_load` returns `None`. -/
def contentNullMeta : String := ("---\n\n---\nJust a body.")

/-- A skill whose body references two scripts that do not exist. -/
def contentTwoRefs : String :=
  ("---\nname: my-skill\ndescription: Use for testing\n---\nRun `scripts/a.sh` and `scripts/b.sh` now.")

def spDemo : List String := [("my-skill")]

/-- The effect of the closing delimiter's greedy `\s*\n` on the text
after its `---`: drop the longest whitespace prefix that ends with a
newline (`none` when the leading whitespace run contains no newline). -/
def stripWsNl : List Char → Option (List Char)
  | [] => none
  | c :: cs =>
    if c = '\n' then some ((stripWsNl cs).getD cs)
    else if isPySpace c then stripWsNl cs
    else none

/-- Body of the C1 failing input: a markdown link whose target is a local
script. -/
def bodyC1 : String := ("Use [run the script](scripts/run.sh) here.")

/-- A filesystem where `scripts/run.sh` actually exists under the skill
directory. -/
def fsC1 : FS where
  pathExists := fun p =>
    p = spDemo || p = spDemo ++ [("SKILL.md")] || p = spDemo ++ [("scripts/run.sh")]
  isDir := fun p => p = spDemo
  isFile := fun p => p = spDemo ++ [("SKILL.md")] || p = spDemo ++ [("scripts/run.sh")]
  readFile := fun _ => Except.error ("No such file or directory")

/-- The C7 frontmatter: a non-string `name` next to a valid description. -/
def fm7 : Frontmatter :=
  [(("name"), Yaml.int 5), (("description"), Yaml.str ("Use for testing"))]

/-- The final state of a fully valid run on `contentOk`. -/
def stOk : VState :=
  ⟨[], [],
   [("Directory exists: my-skill"), ("SKILL.md file exists"),
    ("YAML frontmatter is valid"), ("Required field present: 'name'"),
    ("Required field present: 'description'"),
    ("Skill name format is valid: 'my-skill'"),
    ("Description length appropriate (22 chars)"),
    ("Directory name matches YAML name: 'my-skill'"),
    ("Description explains when to use the skill"),
    ("SKILL.md body has 3 words (<5,000)")]⟩

/-- The pass findings of a run on `contentTwoRefs`. -/
def passesTwoRefs : List String :=
  [("Directory exists: my-skill"), ("SKILL.md file exists"),
   ("YAML frontmatter is valid"), ("Required field present: 'name'"),
   ("Required field present: 'description'"),
   ("Skill name format is valid: 'my-skill'"),
   ("Description length appropriate (15 chars)"),
   ("Directory name matches YAML name: 'my-skill'"),
   ("Description explains when to use the skill"),
   ("SKILL.md body has 5 words (<5,000)")]

/-- Final state of the `contentTwoRefs` run with the insertion-order
enumeration. -/
def stTwoRefsA : VState :=
  ⟨[("Referenced file does not exist: scripts/a.sh"),
    ("Referenced file does not exist: scripts/b.sh")], [], passesTwoRefs⟩

/-- Final state of the same run with the reversed enumeration. -/
def stTwoRefsB : VState :=
  ⟨[("Referenced file does not exist: scripts/b.sh"),
    ("Referenced file does not exist: scripts/a.sh")], [], passesTwoRefs⟩

/-! ## Behavioural sanity checks

Concrete evaluations of the embedded operations, matching what the
Python implementation does on the same inputs. -/

example : pyStrip ("  scripts/run.sh \n") = ("scripts/run.sh") := by decide

example : (pySplit ("one  two\nthree ")).length = 3 := by decide

example : strContains ("use this for testing") ("for") = true := by decide

example : strContains ("a quoted 'name' here") ("'name'") = true := by decide

example : parseFrontmatterRegex ("---\nname: x\n---\nbody") =
    some (("name: x"), ("body")) := by decide

-- A blank line after the closing delimiter is consumed by the greedy
-- `\s*` of the closing delimiter.
example : parseFrontmatterRegex ("---\nname: x\n---\n\nbody") =
    some (("name: x"), ("body")) := by decide

-- An empty frontmatter block is reachable only through backtracking of
-- the opening `\s*\n` (the greedy attempt swallows both newlines).
example : parseFrontmatterRegex ("---\n\n---\nbody") =
    some ((""), ("body")) := by decide

-- `---` immediately followed by `---` with nothing after: no match.
example : parseFrontmatterRegex ("---\n---\nbody") = none := by decide

example : parseFrontmatterRegex ("no frontmatter here") = none := by decide

example : nameFormatMatch ("my-skill-2") = true := by decide

example : nameFormatMatch ("My_Skill") = false := by decide

example : nameFormatMatch ("-leading") = false := by decide

example : nameFormatMatch ("a--b") = false := by decide

example : credSearch CredPat.password ("a password = 'hunter2' here") = true := by decide

example : credSearch CredPat.apikey ("API-KEY: \"k\"") = true := by decide

example : credSearch CredPat.token ("no creds here") = false := by decide

example : credMatchCount CredPat.token ("token = 'a'\ntoken = 'b'") = 2 := by decide

-- on one line the greedy `.*` swallows the second assignment:
example : credMatchCount CredPat.token ("token = 'a' token = 'b'") = 1 := by decide

example : mdLinks ("see [the script](scripts/run.sh) now") =
    [(("the script"), ("scripts/run.sh"))] := by decide

example : referencedFiles ("see [the script](scripts/run.sh) now") =
    [("the script")] := by decide

example : referencedFiles ("a [link](http://example.com) b") = [] := by decide

example : referencedFiles ("run `scripts/a.sh` then `scripts/a.sh`") =
    [("scripts/a.sh")] := by decide

example : safeLoad ("") = Except.ok none := rfl

example : safeLoad ("name: my-skill\ndescription: 42") =
    Except.ok (some [(("name"), Yaml.str ("my-skill")),
                     (("description"), Yaml.int 42)]) := rfl

/-! ## Helper lemmas -/

theorem addErr_errors (st : VState) (m : String) :
    (addErr st m).errors = st.errors ++ [m] := rfl

theorem addPass_errors (st : VState) (m : String) :
    (addPass st m).errors = st.errors := rfl

theorem addWarn_errors (st : VState) (m : String) :
    (addWarn st m).errors = st.errors := rfl

/-- The reference-existence loop appends one error per missing reference,
in iteration order. -/
theorem checkReferences_errors (fs : FS) (sp : List String) (refs : List String) :
    ∀ st : VState, (checkReferences fs sp refs st).errors =
      st.errors ++ ((refs.filter (fun r => !(fs.pathExists (sp ++ [r])))).map
        (fun r => ("Referenced file does not exist: ") ++ r)) := by
  induction refs with
  | nil => intro st; simp [checkReferences]
  | cons r rs ih =>
    intro st
    have step : checkReferences fs sp (r :: rs) st =
        checkReferences fs sp rs
          (if !(fs.pathExists (sp ++ [r])) then
            addErr st (("Referenced file does not exist: ") ++ r)
          else addPass st (("Referenced file exists: ") ++ r)) := rfl
    rw [step]
    by_cases h : fs.pathExists (sp ++ [r]) = true
    · rw [if_neg (by simp [h]), ih]
      simp [addPass, List.filter_cons, h]
    · rw [if_pos (by simp [h]), ih]
      simp [addErr, List.filter_cons, h]

/-- The reference-existence loop appends one pass per existing reference,
in iteration order. -/
theorem checkReferences_passes (fs : FS) (sp : List String) (refs : List String) :
    ∀ st : VState, (checkReferences fs sp refs st).passes =
      st.passes ++ ((refs.filter (fun r => fs.pathExists (sp ++ [r]))).map
        (fun r => ("Referenced file exists: ") ++ r)) := by
  induction refs with
  | nil => intro st; simp [checkReferences]
  | cons r rs ih =>
    intro st
    have step : checkReferences fs sp (r :: rs) st =
        checkReferences fs sp rs
          (if !(fs.pathExists (sp ++ [r])) then
            addErr st (("Referenced file does not exist: ") ++ r)
          else addPass st (("Referenced file exists: ") ++ r)) := rfl
    rw [step]
    by_cases h : fs.pathExists (sp ++ [r]) = true
    · rw [if_neg (by simp [h]), ih]
      simp [addPass, List.filter_cons, h]
    · rw [if_pos (by simp [h]), ih]
      simp [addErr, List.filter_cons, h]

/-- The reference-existence loop never touches warnings. -/
theorem checkReferences_warnings (fs : FS) (sp : List String) (refs : List String) :
    ∀ st : VState, (checkReferences fs sp refs st).warnings = st.warnings := by
  induction refs with
  | nil => intro st; simp [checkReferences]
  | cons r rs ih =>
    intro st
    have step : checkReferences fs sp (r :: rs) st =
        checkReferences fs sp rs
          (if !(fs.pathExists (sp ++ [r])) then
            addErr st (("Referenced file does not exist: ") ++ r)
          else addPass st (("Referenced file exists: ") ++ r)) := rfl
    rw [step]
    by_cases h : fs.pathExists (sp ++ [r]) = true
    · rw [if_neg (by simp [h]), ih]
      rfl
    · rw [if_pos (by simp [h]), ih]
      rfl

/-- The credential loop of `_validate_body_content` appends exactly one
warning per *pattern* whose search succeeds, in the catalog order of the
pattern list. -/
theorem credFold_warnings (body : String) (pats : List CredPat) :
    ∀ st : VState,
    (pats.foldl (fun s p => if credSearch p body then addWarn s (credMsg p) else s) st).warnings =
      st.warnings ++ ((pats.filter (fun p => credSearch p body)).map credMsg) := by
  induction pats with
  | nil => intro st; simp
  | cons p ps ih =>
    intro st
    rw [List.foldl_cons]
    by_cases h : credSearch p body = true
    · rw [if_pos h, ih]
      simp [addWarn, List.filter_cons, h]
    · rw [if_neg (by simp [h]), ih]
      simp [List.filter_cons, h]

/-- The credential loop never touches errors. -/
theorem credFold_errors (body : String) (pats : List CredPat) :
    ∀ st : VState,
    (pats.foldl (fun s p => if credSearch p body then addWarn s (credMsg p) else s) st).errors =
      st.errors := by
  induction pats with
  | nil => intro st; simp
  | cons p ps ih =>
    intro st
    rw [List.foldl_cons]
    by_cases h : credSearch p body = true
    · rw [if_pos h, ih]
      rfl
    · rw [if_neg (by simp [h]), ih]

/-- The greedy (first) `\s*\n` candidate is exactly `stripWsNl`. -/
theorem wsNlCandidates_head (cs : List Char) :
    (wsNlCandidates cs).head? = stripWsNl cs := by
  induction cs with
  | nil => rfl
  | cons c cs ih =>
    by_cases h : c = '\n'
    · subst h
      show (wsNlCandidates cs ++ [cs]).head? = some ((stripWsNl cs).getD cs)
      cases hw : wsNlCandidates cs with
      | nil =>
        have : stripWsNl cs = none := by rw [← ih, hw]; rfl
        simp [this]
      | cons x xs =>
        have : stripWsNl cs = some x := by rw [← ih, hw]; rfl
        simp [this]
    · by_cases h2 : isPySpace c = true
      · show (wsNlCandidates (c :: cs)).head? = stripWsNl (c :: cs)
        simp only [wsNlCandidates, stripWsNl, if_neg h, if_pos h2, ih]
      · simp only [Bool.not_eq_true] at h2
        simp only [wsNlCandidates, stripWsNl, if_neg h, h2]
        rfl

/-- If no closing delimiter matches anywhere in `cs`, the `(.*?)` scan
fails regardless of what has been accumulated. -/
theorem findClose_eq_none {cs : List Char} (h : hasCloser cs = false) :
    ∀ accRev : List Char, findClose accRev cs = none := by
  induction cs with
  | nil => intro acc; rfl
  | cons c cs ih =>
    intro acc
    have hh : ((closeAt (c :: cs)).isSome || hasCloser cs) = false := h
    have hl : (closeAt (c :: cs)).isSome = false := by
      cases hv : (closeAt (c :: cs)).isSome <;> simp [hv] at hh ⊢
    have h2 : hasCloser cs = false := by
      cases hv : hasCloser cs <;> simp [hv] at hh ⊢
    have h1 : closeAt (c :: cs) = none := by
      cases hc : closeAt (c :: cs) with
      | none => rfl
      | some t => rw [hc] at hl; simp at hl
    show (match closeAt (c :: cs) with
      | some tail => some (String.mk acc.reverse, String.mk tail)
      | none => findClose (c :: acc) cs) = none
    rw [h1]
    exact ih h2 _

/-- `_validate_body_content` never appends errors. -/
theorem validateBodyContent_errors (b : String) (st : VState) :
    (validateBodyContent b st).errors = st.errors := by
  show (credPatterns.foldl
      (fun s p => if credSearch p b then addWarn s (credMsg p) else s)
      (if wordCount b > 5000 then
        addWarn st (("SKILL.md body has ") ++ toString (wordCount b) ++ (" words (recommended <5,000)"))
      else
        addPass st (("SKILL.md body has ") ++ toString (wordCount b) ++ (" words (<5,000)")))).errors
    = st.errors
  rw [credFold_errors]
  split <;> rfl

/-- `Except.map` on a success. -/
theorem except_map_ok {α β : Type} (f : α → β) (a : α) :
    Except.map (f := f) (Except.ok a : Except String α) = Except.ok (f a) := rfl

/-- `Except.map` on a failure. -/
theorem except_map_error {α β : Type} (f : α → β) (e : String) :
    Except.map (f := f) (Except.error e : Except String α) = Except.error e := rfl

/-- `bodyStep` with a parsed body. -/
theorem bodyStep_some (fs : FS) (sp : List String)
    (enum : List String → List String) (b : String) (st4 : VState) :
    bodyStep fs sp enum (some b) st4 =
      checkReferences fs sp (enum (referencedFiles b)) (validateBodyContent b st4) := rfl

/-- `bodyStep` with no body. -/
theorem bodyStep_none (fs : FS) (sp : List String)
    (enum : List String → List String) (st4 : VState) :
    bodyStep fs sp enum none st4 = st4 := rfl

/-- Two lists related by a permutation are empty together. -/
theorem perm_isEmpty {α : Type} {l1 l2 : List α} (h : l1.Perm l2) :
    l1.isEmpty = l2.isEmpty := by
  have hl := h.length_eq
  cases l1 <;> cases l2 <;> simp_all

/-- A reference-resolver error message is never a missing-field message
(first characters differ). -/
theorem refErr_ne_missing (r fld : String) :
    (("Referenced file does not exist: ") ++ r) ≠
      (("Missing required field in YAML: '") ++ fld ++ ("'")) := by
  intro h
  have h2 : some 'R' = some 'M' := congrArg (fun s : String => s.data.head?) h
  exact absurd h2 (by decide)

/-! ## Claim C1 -/

/-- C1: the claim says the Reference Resolver extracts the markdown link
**target** (trimmed) for the existence check.  The program's extraction
loop takes `match.group(1)` for every pattern (both branches of the
conditional at source line 212 are `match.group(1)`), which for the
markdown-link pattern is the **label**.  On `[run the script](scripts/run.sh)`
the match yields label `run the script` and target `scripts/run.sh`; the
collected reference is the label, and the existence check then fails on
`my-skill/run the script` even though `my-skill/scripts/run.sh` exists. -/
theorem c1_markdown_extracts_label :
    mdLinks bodyC1 = [(("run the script"), ("scripts/run.sh"))] ∧
    referencedFiles bodyC1 = [("run the script")] ∧
    checkReferences fsC1 spDemo (referencedFiles bodyC1) st0 =
      ⟨[("Referenced file does not exist: run the script")], [], []⟩ := by
  refine ⟨by decide, by decide, by decide⟩

/-! ## Claim C2 -/

/-- C2: the claim says no rule raises past its boundary, and that with a
non-string `description` the engine still finishes the catalog and
returns a report.  In the program, `_validate_yaml_frontmatter` does
record the type error, but `_validate_description` then calls
`frontmatter["description"].lower()` unguarded, and for `description: 42`
(decoded as an `int`) this raises `AttributeError` out of `validate()`:
no report is produced.  The model returns `Except.error` for the escaped
exception. -/
theorem c2_nonstring_description_raises :
    (parseSkillMd (fsWith spDemo contentBadDesc) (spDemo ++ [("SKILL.md")]) st0).frontmatter =
      some [(("name"), Yaml.str ("my-skill")), (("description"), Yaml.int 42)] ∧
    runValidator (fsWith spDemo contentBadDesc) spDemo id =
      Except.error ("AttributeError: object has no attribute lower") := by
  refine ⟨rfl, rfl⟩

/-! ## Claim C5 -/

/-- C5 counterexample: the claim says every match yields its own Warning
(one per match).  The body below contains two non-overlapping matches of
the `token` pattern, yet `_validate_body_content` emits exactly one
warning for it (it uses `re.search` once per pattern, not
`re.finditer`). -/
theorem c5_counterexample :
    credMatchCount CredPat.token ("token = 'a'\ntoken = 'b'") = 2 ∧
    (validateBodyContent ("token = 'a'\ntoken = 'b'") st0).warnings =
      [credMsg CredPat.token] ∧
    (validateBodyContent ("token = 'a'\ntoken = 'b'") st0).errors = [] := by
  refine ⟨by decide, by decide, by decide⟩

/-- C5 (amended): the credential scan emits exactly one Warning per
*pattern* that matches somewhere in the body (regardless of how many
matches it has), in the fixed catalog order of the four patterns —
after the word-count finding — and never an error. -/
theorem c5_amended (body : String) (st : VState) :
    (validateBodyContent body st).warnings =
      st.warnings
        ++ (if wordCount body > 5000 then
              [("SKILL.md body has ") ++ toString (wordCount body) ++ (" words (recommended <5,000)")]
            else [])
        ++ ((credPatterns.filter (fun p => credSearch p body)).map credMsg) ∧
    (validateBodyContent body st).errors = st.errors := by
  constructor
  · show (credPatterns.foldl
        (fun s p => if credSearch p body then addWarn s (credMsg p) else s)
        (if wordCount body > 5000 then
          addWarn st (("SKILL.md body has ") ++ toString (wordCount body) ++ (" words (recommended <5,000)"))
        else
          addPass st (("SKILL.md body has ") ++ toString (wordCount body) ++ (" words (<5,000)")))).warnings
      = _
    rw [credFold_warnings]
    by_cases h : wordCount body > 5000
    · rw [if_pos h, if_pos h]
      simp [addWarn]
    · rw [if_neg h, if_neg h]
      simp [addPass]
  · exact validateBodyContent_errors body st

/-- Witness for `c5_amended` on a body with one matching pattern. -/
theorem c5_amended_witness :
    (validateBodyContent ("token = 'a'\ntoken = 'c'") st0).warnings =
      st0.warnings
        ++ (if wordCount ("token = 'a'\ntoken = 'c'") > 5000 then
              [("SKILL.md body has ") ++ toString (wordCount ("token = 'a'\ntoken = 'c'"))
                ++ (" words (recommended <5,000)")]
            else [])
        ++ ((credPatterns.filter
              (fun p => credSearch p ("token = 'a'\ntoken = 'c'"))).map credMsg) ∧
    (validateBodyContent ("token = 'a'\ntoken = 'c'") st0).errors = st0.errors :=
  c5_amended ("token = 'a'\ntoken = 'c'") st0

/-! ## Claim C7 -/

/-- C7 counterexample: the claim says a non-string `name` gets a type
Error and **no further Finding about `name`**.  The program does skip
`_validate_skill_name`, but `_validate_name_matching` still runs: Python
`5 != "five"` is `True`, so a second Error about `name` (the
directory-mismatch finding) is emitted. -/
theorem c7_counterexample :
    (("Field 'name' must be a string") ∈
      (validateNameMatching [("five")] fm7 (validateYamlFrontmatter fm7 st0)).errors) ∧
    (("Directory name 'five' does not match YAML name '5'") ∈
      (validateNameMatching [("five")] fm7 (validateYamlFrontmatter fm7 st0)).errors) := by
  refine ⟨by decide, by decide⟩

/-- C7 (amended): with `name` present but non-string (and no
`description`), the engine emits the type Error and skips the
name-format check, but the name/directory-match check still runs and
emits a mismatch Error, because a non-string value never equals the
directory-name string. -/
theorem c7_amended (sp : List String) (v : Yaml) (hv : v.isStr = false) :
    validateNameMatching sp [(("name"), v)]
        (validateYamlFrontmatter [(("name"), v)] st0) =
      ⟨[("Missing required field in YAML: 'description'"),
        ("Field 'name' must be a string"),
        ("Directory name '") ++ dirName sp ++ ("' does not match YAML name '")
          ++ yamlRepr v ++ ("'")],
       [],
       [("Required field present: 'name'")]⟩ := by
  cases v with
  | str s => simp [Yaml.isStr] at hv
  | int n => rfl

/-- Witness for `c7_amended` at `name: 5` in directory `five`. -/
theorem c7_amended_witness :
    validateNameMatching [("five")] [(("name"), Yaml.int 5)]
        (validateYamlFrontmatter [(("name"), Yaml.int 5)] st0) =
      ⟨[("Missing required field in YAML: 'description'"),
        ("Field 'name' must be a string"),
        ("Directory name 'five' does not match YAML name '5'")],
       [],
       [("Required field present: 'name'")]⟩ :=
  c7_amended [("five")] (Yaml.int 5) rfl

/-! ## Claim C8 -/

/-- C8 counterexample: the claim says the body is the raw text after the
closing `---` line **including** leading blank lines.  With a blank line
right after the closing delimiter the greedy `\s*` of `\n---\s*\n`
consumes it, so the parsed body is `The body.`, not `\nThe body.`. -/
theorem c8_counterexample :
    parseFrontmatterRegex ("---\nname: x\n---\n\nThe body.") =
      some (("name: x"), ("The body.")) ∧
    (("The body.") : String) ≠ ("\nThe body.") := by
  refine ⟨by decide, by decide⟩

/-- C8 (amended): for a document `---\nname: x\n---\n` followed by any
tail `b`, the parsed body is `b` with the longest whitespace prefix of
`'\n' :: b` that ends in a newline removed — i.e. the closing
delimiter's `\s*\n` also swallows any blank lines immediately after the
delimiter line; everything else of the body, including trailing
whitespace, is returned verbatim. -/
theorem c8_amended (b : List Char) :
    parseFrontmatterRegex (String.mk
        (['-', '-', '-', '\n', 'n', 'a', 'm', 'e', ':', ' ', 'x', '\n',
          '-', '-', '-', '\n'] ++ b)) =
      (stripWsNl ('\n' :: b)).map (fun t => (("name: x"), String.mk t)) := by
  have hcand : wsNlCandidates ('\n' :: b) = wsNlCandidates b ++ [b] := rfl
  cases hwb : wsNlCandidates b with
  | nil =>
    have hsb : stripWsNl b = none := by rw [← wsNlCandidates_head, hwb]; rfl
    have hc : closeAt ('\n' :: '-' :: '-' :: '-' :: '\n' :: b) = some b := by
      show (match wsNlCandidates ('\n' :: b) with
        | tail :: _ => some tail
        | [] => none) = some b
      rw [hcand, hwb]
      rfl
    have main : findClose []
        ('n' :: 'a' :: 'm' :: 'e' :: ':' :: ' ' :: 'x' :: '\n'
          :: '-' :: '-' :: '-' :: '\n' :: b) =
        some (("name: x"), String.mk b) := by
      show (match closeAt ('\n' :: '-' :: '-' :: '-' :: '\n' :: b) with
        | some tail =>
          some (String.mk ['x', ' ', ':', 'e', 'm', 'a', 'n'].reverse, String.mk tail)
        | none =>
          findClose ('\n' :: 'x' :: ' ' :: ':' :: 'e' :: 'm' :: 'a' :: 'n' :: [])
            ('-' :: '-' :: '-' :: '\n' :: b)) = some (("name: x"), String.mk b)
      rw [hc]
      rfl
    show (match findClose []
        ('n' :: 'a' :: 'm' :: 'e' :: ':' :: ' ' :: 'x' :: '\n'
          :: '-' :: '-' :: '-' :: '\n' :: b) with
      | some r => some r
      | none => firstClose []) = _
    rw [main]
    show some (("name: x"), String.mk b) =
      (some ((stripWsNl b).getD b)).map (fun t => (("name: x"), String.mk t))
    rw [hsb]
    rfl
  | cons t ts =>
    have hsb : stripWsNl b = some t := by rw [← wsNlCandidates_head, hwb]; rfl
    have hc : closeAt ('\n' :: '-' :: '-' :: '-' :: '\n' :: b) = some t := by
      show (match wsNlCandidates ('\n' :: b) with
        | tail :: _ => some tail
        | [] => none) = some t
      rw [hcand, hwb]
      rfl
    have main : findClose []
        ('n' :: 'a' :: 'm' :: 'e' :: ':' :: ' ' :: 'x' :: '\n'
          :: '-' :: '-' :: '-' :: '\n' :: b) =
        some (("name: x"), String.mk t) := by
      show (match closeAt ('\n' :: '-' :: '-' :: '-' :: '\n' :: b) with
        | some tail =>
          some (String.mk ['x', ' ', ':', 'e', 'm', 'a', 'n'].reverse, String.mk tail)
        | none =>
          findClose ('\n' :: 'x' :: ' ' :: ':' :: 'e' :: 'm' :: 'a' :: 'n' :: [])
            ('-' :: '-' :: '-' :: '\n' :: b)) = some (("name: x"), String.mk t)
      rw [hc]
      rfl
    show (match findClose []
        ('n' :: 'a' :: 'm' :: 'e' :: ':' :: ' ' :: 'x' :: '\n'
          :: '-' :: '-' :: '-' :: '\n' :: b) with
      | some r => some r
      | none => firstClose []) = _
    rw [main]
    show some (("name: x"), String.mk t) =
      (some ((stripWsNl b).getD b)).map (fun t => (("name: x"), String.mk t))
    rw [hsb]
    rfl

/-- Witness for `c8_amended` with a body tail starting with a blank
line. -/
theorem c8_amended_witness :
    parseFrontmatterRegex (String.mk
        (['-', '-', '-', '\n', 'n', 'a', 'm', 'e', ':', ' ', 'x', '\n',
          '-', '-', '-', '\n'] ++ ("\nBody.").data)) =
      (stripWsNl ('\n' :: ("\nBody.").data)).map
        (fun t => (("name: x"), String.mk t)) :=
  c8_amended (("\nBody.").data)

/-! ## Claim C10 -/

/-- C10: a document opening `---` immediately followed by the closing
`---` (empty delimiter block) does not match the frontmatter regex — the
non-greedy `(.*?)` needs at least the `\n` before the closing `---`, and
backtracking of the opening `\s*\n` cannot help — so as long as no later
closing delimiter `\n---\s*\n` occurs in the rest of the text,
`_parse_skill_md` reports the fatal missing-frontmatter error and
produces neither metadata nor body, rather than an empty mapping. -/
theorem c10_empty_block_is_fatal (rest : List Char) (st : VState)
    (h : hasCloser (('-' :: '-' :: '-' :: '\n' :: rest)) = false) :
    parseContent (String.mk
        (['-', '-', '-', '\n', '-', '-', '-', '\n'] ++ rest)) st =
      ⟨none, none,
       addErr st ("SKILL.md missing YAML frontmatter (must start with ---)")⟩ := by
  have hr : parseFrontmatterRegex (String.mk
      (['-', '-', '-', '\n', '-', '-', '-', '\n'] ++ rest)) = none := by
    show firstClose (wsNlCandidates ('\n' :: '-' :: '-' :: '-' :: '\n' :: rest)) = none
    have hcand : wsNlCandidates ('\n' :: '-' :: '-' :: '-' :: '\n' :: rest) =
        [('-' :: '-' :: '-' :: '\n' :: rest)] := rfl
    rw [hcand]
    show (match findClose [] ('-' :: '-' :: '-' :: '\n' :: rest) with
      | some r => some r
      | none => firstClose []) = none
    rw [findClose_eq_none h]
    rfl
  show (match parseFrontmatterRegex (String.mk
      (['-', '-', '-', '\n', '-', '-', '-', '\n'] ++ rest)) with
    | none =>
      (⟨none, none,
        addErr st ("SKILL.md missing YAML frontmatter (must start with ---)")⟩ : ParseOut)
    | some (fmText, body) =>
      match safeLoad fmText with
      | Except.ok fm => ⟨fm, some body, addPass st ("YAML frontmatter is valid")⟩
      | Except.error e => ⟨none, some body, addErr st (("Invalid YAML frontmatter: ") ++ e)⟩) = _
  rw [hr]

/-- Witness for `c10_empty_block_is_fatal` on `---\n---\nThe skill body.`. -/
theorem c10_witness :
    parseContent (String.mk
        (['-', '-', '-', '\n', '-', '-', '-', '\n'] ++ ("The skill body.").data)) st0 =
      ⟨none, none,
       addErr st0 ("SKILL.md missing YAML frontmatter (must start with ---)")⟩ :=
  c10_empty_block_is_fatal (("The skill body.").data) st0 (by decide)

/-! ## Claim C3 -/

/-- C3 counterexample: the claim says that when the metadata block
decodes to null the engine treats it as an empty mapping and the
required-field rule emits Errors for `name` and `description`.  On the
document `---\n\n---\nJust a body.` the regex match succeeds with an
empty frontmatter text, `yaml.safe_load` returns `None`, and `validate`
— whose metadata rules are guarded by `if frontmatter is not None` —
skips every metadata rule: the run ends with **no** errors and result
`True`. -/
theorem c3_counterexample :
    parseFrontmatterRegex contentNullMeta = some ((""), ("Just a body.")) ∧
    safeLoad ("") = Except.ok none ∧
    runValidator (fsWith spDemo contentNullMeta) spDemo id =
      Except.ok
        (⟨[], [],
          [("Directory exists: my-skill"), ("SKILL.md file exists"),
           ("YAML frontmatter is valid"), ("SKILL.md body has 3 words (<5,000)")]⟩,
         true) := by
  refine ⟨by decide, rfl, rfl⟩

/-- C3 (amended): when the metadata block decodes to an empty/null
value, the parser hands `None` to the engine and **all metadata rules
are skipped** — in particular no required-field finding (neither Error
nor Pass) is emitted for `name` or `description`; the body rules and the
reference check still run, and the only possible errors are
reference-resolution errors. -/
theorem c3_amended (fs : FS) (sp : List String) (enum : List String → List String)
    (content fmText body : String)
    (hd : fs.pathExists sp = true) (hdd : fs.isDir sp = true)
    (hm : fs.pathExists (sp ++ [("SKILL.md")]) = true)
    (hmf : fs.isFile (sp ++ [("SKILL.md")]) = true)
    (hr : fs.readFile (sp ++ [("SKILL.md")]) = Except.ok content)
    (hp : parseFrontmatterRegex content = some (fmText, body))
    (hy : safeLoad fmText = Except.ok none) :
    ∃ stF : VState,
      runValidator fs sp enum = Except.ok (stF, stF.errors.isEmpty) ∧
      stF = checkReferences fs sp (enum (referencedFiles body))
        (validateBodyContent body
          ⟨[], [],
           [("Directory exists: ") ++ pathStr sp, ("SKILL.md file exists"),
            ("YAML frontmatter is valid")]⟩) ∧
      stF.errors = ((enum (referencedFiles body)).filter
          (fun r => !(fs.pathExists (sp ++ [r])))).map
          (fun r => ("Referenced file does not exist: ") ++ r) ∧
      (("Missing required field in YAML: 'name'") ∉ stF.errors) ∧
      (("Missing required field in YAML: 'description'") ∉ stF.errors) := by
  have herr : (checkReferences fs sp (enum (referencedFiles body))
      (validateBodyContent body
        ⟨[], [],
         [("Directory exists: ") ++ pathStr sp, ("SKILL.md file exists"),
          ("YAML frontmatter is valid")]⟩)).errors =
      ((enum (referencedFiles body)).filter
        (fun r => !(fs.pathExists (sp ++ [r])))).map
        (fun r => ("Referenced file does not exist: ") ++ r) := by
    rw [checkReferences_errors, validateBodyContent_errors]
    rfl
  refine ⟨_, ?_, rfl, herr, ?_, ?_⟩
  · simp only [runValidator, parseSkillMd, parseContent, validateMeta,
      bodyStep, Except.map, checkDirectoryExists, checkSkillMdExists, hd, hdd,
      hm, hmf, hr, hy, hp, st0, addPass, Bool.not_true, Bool.or_self,
      Bool.false_or, if_false, Bool.false_eq_true, ite_false]
    rfl
  · rw [herr]
    intro hmem
    obtain ⟨r, _, heq⟩ := List.mem_map.mp hmem
    exact refErr_ne_missing r ("name") heq
  · rw [herr]
    intro hmem
    obtain ⟨r, _, heq⟩ := List.mem_map.mp hmem
    exact refErr_ne_missing r ("description") heq

/-- Witness for `c3_amended` on the `---\n\n---\nJust a body.` fixture. -/
theorem c3_amended_witness :
    ∃ stF : VState,
      runValidator (fsWith spDemo contentNullMeta) spDemo id =
        Except.ok (stF, stF.errors.isEmpty) ∧
      stF = checkReferences (fsWith spDemo contentNullMeta) spDemo
        (id (referencedFiles ("Just a body.")))
        (validateBodyContent ("Just a body.")
          ⟨[], [],
           [("Directory exists: ") ++ pathStr spDemo, ("SKILL.md file exists"),
            ("YAML frontmatter is valid")]⟩) ∧
      stF.errors = (((id (referencedFiles ("Just a body.")))).filter
          (fun r => !((fsWith spDemo contentNullMeta).pathExists (spDemo ++ [r])))).map
          (fun r => ("Referenced file does not exist: ") ++ r) ∧
      (("Missing required field in YAML: 'name'") ∉ stF.errors) ∧
      (("Missing required field in YAML: 'description'") ∉ stF.errors) :=
  c3_amended (fsWith spDemo contentNullMeta) spDemo id contentNullMeta ("")
    ("Just a body.") rfl rfl rfl rfl rfl (by decide) rfl

/-! ## Claim C4 -/

/-- C4: each fatal input condition — directory missing, `SKILL.md`
missing, `SKILL.md` unreadable, metadata block absent — aborts rule
evaluation (no rule finding appears), forces result `False` (verdict
Error), and is reported by exactly one explanatory Error finding for
that condition. -/
theorem c4_fatal_input_errors (fs : FS) (sp : List String)
    (enum : List String → List String) :
    (fs.pathExists sp = false → fs.pathExists (sp ++ [("SKILL.md")]) = false →
      ∃ st : VState, runValidator fs sp enum = Except.ok (st, false) ∧
        st.errors = [("Directory does not exist: ") ++ pathStr sp,
                     ("SKILL.md file not found (case-sensitive)")] ∧
        st.warnings = [] ∧ st.passes = [] ∧ specVerdict st = Severity.error) ∧
    (fs.pathExists sp = true → fs.isDir sp = true →
     fs.pathExists (sp ++ [("SKILL.md")]) = false →
      ∃ st : VState, runValidator fs sp enum = Except.ok (st, false) ∧
        st.errors = [("SKILL.md file not found (case-sensitive)")] ∧
        st.warnings = [] ∧
        st.passes = [("Directory exists: ") ++ pathStr sp] ∧
        specVerdict st = Severity.error) ∧
    (∀ e : String, fs.pathExists sp = true → fs.isDir sp = true →
     fs.pathExists (sp ++ [("SKILL.md")]) = true →
     fs.isFile (sp ++ [("SKILL.md")]) = true →
     fs.readFile (sp ++ [("SKILL.md")]) = Except.error e →
      ∃ st : VState, runValidator fs sp enum = Except.ok (st, false) ∧
        st.errors = [("Failed to read SKILL.md: ") ++ e] ∧
        st.warnings = [] ∧
        st.passes = [("Directory exists: ") ++ pathStr sp, ("SKILL.md file exists")] ∧
        specVerdict st = Severity.error) ∧
    (∀ content : String, fs.pathExists sp = true → fs.isDir sp = true →
     fs.pathExists (sp ++ [("SKILL.md")]) = true →
     fs.isFile (sp ++ [("SKILL.md")]) = true →
     fs.readFile (sp ++ [("SKILL.md")]) = Except.ok content →
     parseFrontmatterRegex content = none →
      ∃ st : VState, runValidator fs sp enum = Except.ok (st, false) ∧
        st.errors = [("SKILL.md missing YAML frontmatter (must start with ---)")] ∧
        st.warnings = [] ∧
        st.passes = [("Directory exists: ") ++ pathStr sp, ("SKILL.md file exists")] ∧
        specVerdict st = Severity.error) := by
  refine ⟨?_, ?_, ?_, ?_⟩
  · intro h1 h2
    refine ⟨⟨[("Directory does not exist: ") ++ pathStr sp,
              ("SKILL.md file not found (case-sensitive)")], [], []⟩,
            ?_, rfl, rfl, rfl, rfl⟩
    simp only [runValidator, checkDirectoryExists, checkSkillMdExists,
      h1, h2, st0, addErr, Bool.not_false, Bool.true_or, Bool.or_true, if_true]
    rfl
  · intro h1 h2 h3
    refine ⟨⟨[("SKILL.md file not found (case-sensitive)")], [],
             [("Directory exists: ") ++ pathStr sp]⟩,
            ?_, rfl, rfl, rfl, rfl⟩
    simp only [runValidator, checkDirectoryExists, checkSkillMdExists,
      h1, h2, h3, st0, addErr, addPass, Bool.not_false, Bool.not_true,
      Bool.or_true, Bool.false_or, if_true]
    rfl
  · intro e h1 h2 h3 h4 h5
    refine ⟨⟨[("Failed to read SKILL.md: ") ++ e], [],
             [("Directory exists: ") ++ pathStr sp, ("SKILL.md file exists")]⟩,
            ?_, rfl, rfl, rfl, rfl⟩
    simp only [runValidator, checkDirectoryExists, checkSkillMdExists,
      parseSkillMd, validateMeta, bodyStep, Except.map, h1, h2, h3, h4, h5,
      st0, addErr, addPass, Bool.not_true, Bool.or_self, if_false,
      Bool.false_eq_true, ite_false]
    rfl
  · intro content h1 h2 h3 h4 h5 h6
    refine ⟨⟨[("SKILL.md missing YAML frontmatter (must start with ---)")], [],
             [("Directory exists: ") ++ pathStr sp, ("SKILL.md file exists")]⟩,
            ?_, rfl, rfl, rfl, rfl⟩
    simp only [runValidator, checkDirectoryExists, checkSkillMdExists,
      parseSkillMd, parseContent, validateMeta, bodyStep, Except.map, h1, h2,
      h3, h4, h5, h6, st0, addErr, addPass, Bool.not_true, Bool.or_self,
      if_false, Bool.false_eq_true, ite_false]
    rfl

/-- Witness for `c4_fatal_input_errors`: the empty filesystem (directory
missing). -/
theorem c4_witness :
    ∃ st : VState, runValidator fsEmpty [("ghost-skill")] id = Except.ok (st, false) ∧
      st.errors = [("Directory does not exist: ") ++ pathStr [("ghost-skill")],
                   ("SKILL.md file not found (case-sensitive)")] ∧
      st.warnings = [] ∧ st.passes = [] ∧ specVerdict st = Severity.error :=
  (c4_fatal_input_errors fsEmpty [("ghost-skill")] id).1 rfl rfl

/-- If the directory is missing, `_check_directory_exists` records the
error. -/
theorem checkDirectoryExists_missing (fs : FS) (sp : List String) (st : VState)
    (h : fs.pathExists sp = false) :
    (checkDirectoryExists fs sp st).errors =
      st.errors ++ [("Directory does not exist: ") ++ pathStr sp] := by
  unfold checkDirectoryExists
  rw [if_pos (by simp [h])]
  rfl

/-- If `SKILL.md` is missing, `_check_skill_md_exists` records the
error. -/
theorem checkSkillMdExists_missing (fs : FS) (sp : List String) (st : VState)
    (h : fs.pathExists (sp ++ [("SKILL.md")]) = false) :
    (checkSkillMdExists fs sp st).errors =
      st.errors ++ [("SKILL.md file not found (case-sensitive)")] := by
  unfold checkSkillMdExists
  rw [if_pos (by simp [h])]
  rfl

/-- `_check_skill_md_exists` never removes errors. -/
theorem checkSkillMdExists_errors_ne (fs : FS) (sp : List String) (st : VState)
    (h : st.errors ≠ []) : (checkSkillMdExists fs sp st).errors ≠ [] := by
  unfold checkSkillMdExists
  split
  · simp [addErr]
  · split
    · simp [addErr]
    · exact h

/-- Whenever `validate()` returns normally, its boolean result equals
`len(self.errors) == 0` on the final state — including the early-return
path, which always has a recorded existence error. -/
theorem runValidator_ok_isEmpty (fs : FS) (sp : List String)
    (enum : List String → List String) (st : VState) (b : Bool)
    (h : runValidator fs sp enum = Except.ok (st, b)) :
    b = st.errors.isEmpty := by
  by_cases hc : ((!fs.pathExists sp) || (!fs.pathExists (sp ++ [("SKILL.md")]))) = true
  · simp only [runValidator] at h
    rw [if_pos hc] at h
    simp only [Except.ok.injEq, Prod.mk.injEq] at h
    obtain ⟨hst, hbb⟩ := h
    have hne : st.errors ≠ [] := by
      rw [← hst]
      rcases Bool.or_eq_true_iff.mp hc with hd | hmd
      · have hd2 : fs.pathExists sp = false := by
          cases hv : fs.pathExists sp <;> simp [hv] at hd ⊢
        apply checkSkillMdExists_errors_ne
        rw [checkDirectoryExists_missing fs sp st0 hd2]
        simp
      · have hmd2 : fs.pathExists (sp ++ [("SKILL.md")]) = false := by
          cases hv : fs.pathExists (sp ++ [("SKILL.md")]) <;> simp [hv] at hmd ⊢
        rw [checkSkillMdExists_missing _ _ _ hmd2]
        simp
    rw [← hbb]
    cases hE : st.errors with
    | nil => exact absurd hE hne
    | cons x xs => rfl
  · simp only [runValidator] at h
    rw [if_neg hc] at h
    cases hm : validateMeta sp
        (parseSkillMd fs (sp ++ [("SKILL.md")])
          (checkSkillMdExists fs sp (checkDirectoryExists fs sp st0))).frontmatter
        (parseSkillMd fs (sp ++ [("SKILL.md")])
          (checkSkillMdExists fs sp (checkDirectoryExists fs sp st0))).st with
    | error e =>
      rw [hm, except_map_error] at h
      exact absurd h (by simp)
    | ok st4 =>
      rw [hm] at h
      simp only [except_map_ok, Except.ok.injEq, Prod.mk.injEq] at h
      obtain ⟨hst, hbb⟩ := h
      rw [← hbb, ← hst]

/-! ## Claim C6 -/

/-- C6: on every normal run the boolean result is `errors == []`; the
exit status (`0 if is_valid else 1`) is `0` exactly when the verdict is
not Error; and the spec's severity-derived verdict agrees with the
report's `RESULT:` line — Error iff any Error finding, Warning iff some
Warning and no Error, Pass otherwise. -/
theorem c6_verdict_and_exit (fs : FS) (sp : List String)
    (enum : List String → List String) (st : VState) (b : Bool)
    (h : runValidator fs sp enum = Except.ok (st, b)) :
    (b = true ↔ st.errors = []) ∧
    (exitCode b = 0 ↔ specVerdict st ≠ Severity.error) ∧
    (specVerdict st = Severity.error ↔ st.errors ≠ []) ∧
    (specVerdict st = Severity.warning ↔ (st.errors = [] ∧ st.warnings ≠ [])) ∧
    (specVerdict st = Severity.pass ↔ (st.errors = [] ∧ st.warnings = [])) ∧
    ((resultLine st = ("RESULT: FAILED - Fix errors before using this skill")) ↔
      specVerdict st = Severity.error) := by
  have hb := runValidator_ok_isEmpty fs sp enum st b h
  subst hb
  have hv1 : st.errors.isEmpty = false → specVerdict st = Severity.error := by
    intro hE
    unfold specVerdict
    rw [hE]
    rfl
  have hv2 : st.errors.isEmpty = true →
      specVerdict st = (if !st.warnings.isEmpty then Severity.warning else Severity.pass) := by
    intro hE
    unfold specVerdict
    rw [hE]
    rfl
  refine ⟨List.isEmpty_iff, ?_, ?_, ?_, ?_, ?_⟩
  · cases hE : st.errors.isEmpty with
    | true =>
      have hne : specVerdict st ≠ Severity.error := by
        rw [hv2 hE]
        split <;> simp
      simp [exitCode, hne]
    | false =>
      have heq : specVerdict st = Severity.error := hv1 hE
      simp [exitCode, heq]
  · cases hE : st.errors.isEmpty with
    | true =>
      have he := List.isEmpty_iff.mp hE
      rw [hv2 hE]
      simp only [he, ne_eq, not_true_eq_false, iff_false]
      split <;> simp
    | false =>
      have he : st.errors ≠ [] := by
        intro h0
        rw [h0] at hE
        simp at hE
      simp [hv1 hE, he]
  · cases hE : st.errors.isEmpty with
    | true =>
      have he := List.isEmpty_iff.mp hE
      rw [hv2 hE]
      cases hW : st.warnings.isEmpty with
      | true =>
        have hw := List.isEmpty_iff.mp hW
        simp [he, hw]
      | false =>
        have hw : st.warnings ≠ [] := by
          intro h0
          rw [h0] at hW
          simp at hW
        simp [he, hw]
    | false =>
      have he : st.errors ≠ [] := by
        intro h0
        rw [h0] at hE
        simp at hE
      simp [hv1 hE, he]
  · cases hE : st.errors.isEmpty with
    | true =>
      have he := List.isEmpty_iff.mp hE
      rw [hv2 hE]
      cases hW : st.warnings.isEmpty with
      | true =>
        have hw := List.isEmpty_iff.mp hW
        simp [he, hw]
      | false =>
        have hw : st.warnings ≠ [] := by
          intro h0
          rw [h0] at hW
          simp at hW
        simp [he, hw]
    | false =>
      have he : st.errors ≠ [] := by
        intro h0
        rw [h0] at hE
        simp at hE
      simp [hv1 hE, he]
  · unfold resultLine
    cases hE : st.errors.isEmpty with
    | true =>
      have hne : specVerdict st ≠ Severity.error := by
        rw [hv2 hE]
        split <;> simp
      simp only [hne, iff_false, Bool.not_true, Bool.false_eq_true, if_false]
      split <;> decide
    | false =>
      rw [hv1 hE]
      simp

/-- Witness for `c6_verdict_and_exit` on a fully valid run. -/
theorem c6_witness :
    (true = true ↔ stOk.errors = []) ∧
    (exitCode true = 0 ↔ specVerdict stOk ≠ Severity.error) ∧
    (specVerdict stOk = Severity.error ↔ stOk.errors ≠ []) ∧
    (specVerdict stOk = Severity.warning ↔ (stOk.errors = [] ∧ stOk.warnings ≠ [])) ∧
    (specVerdict stOk = Severity.pass ↔ (stOk.errors = [] ∧ stOk.warnings = [])) ∧
    ((resultLine stOk = ("RESULT: FAILED - Fix errors before using this skill")) ↔
      specVerdict stOk = Severity.error) :=
  c6_verdict_and_exit (fsWith spDemo contentOk) spDemo id stOk true rfl

/-! ## Claim C9 -/

/-- C9 (amended): the report is a pure function of the document, the
filesystem and the iteration order of the `referenced_files` set; two
runs whose set-enumeration orders are permutations of each other return
the same boolean result and finding multisets — the error and pass lists
agree up to the order of the file-reference findings, and the warnings
agree exactly.  Byte-identical reports are guaranteed only when the two
enumerations coincide, which Python's `set` iteration order does not
promise across processes. -/
theorem c9_amended (fs : FS) (sp : List String) (e1 e2 : List String → List String)
    (hperm : ∀ l : List String, (e1 l).Perm (e2 l))
    (st1 : VState) (b1 : Bool)
    (h1 : runValidator fs sp e1 = Except.ok (st1, b1)) :
    ∃ st2 : VState, runValidator fs sp e2 = Except.ok (st2, b1) ∧
      st1.errors.Perm st2.errors ∧ st1.warnings = st2.warnings ∧
      st1.passes.Perm st2.passes := by
  by_cases hc : ((!fs.pathExists sp) || (!fs.pathExists (sp ++ [("SKILL.md")]))) = true
  · simp only [runValidator] at h1 ⊢
    rw [if_pos hc] at h1 ⊢
    simp only [Except.ok.injEq, Prod.mk.injEq] at h1
    obtain ⟨hst, hbb⟩ := h1
    exact ⟨st1, by rw [← hst, ← hbb], List.Perm.refl _, rfl, List.Perm.refl _⟩
  · simp only [runValidator] at h1 ⊢
    rw [if_neg hc] at h1 ⊢
    cases hm : validateMeta sp
        (parseSkillMd fs (sp ++ [("SKILL.md")])
          (checkSkillMdExists fs sp (checkDirectoryExists fs sp st0))).frontmatter
        (parseSkillMd fs (sp ++ [("SKILL.md")])
          (checkSkillMdExists fs sp (checkDirectoryExists fs sp st0))).st with
    | error e =>
      rw [hm, except_map_error] at h1
      exact absurd h1 (by simp)
    | ok st4 =>
      rw [hm] at h1
      simp only [except_map_ok] at h1 ⊢
      cases hbody : (parseSkillMd fs (sp ++ [("SKILL.md")])
          (checkSkillMdExists fs sp (checkDirectoryExists fs sp st0))).body with
      | none =>
        rw [hbody] at h1
        rw [bodyStep_none] at h1 ⊢
        simp only [Except.ok.injEq, Prod.mk.injEq] at h1
        obtain ⟨hst, hbb⟩ := h1
        exact ⟨st1, by rw [← hst, ← hbb], List.Perm.refl _, rfl, List.Perm.refl _⟩
      | some bodyS =>
        rw [hbody] at h1
        rw [bodyStep_some] at h1 ⊢
        simp only [Except.ok.injEq, Prod.mk.injEq] at h1
        obtain ⟨hst, hbb⟩ := h1
        have hpe : st1.errors.Perm
            (checkReferences fs sp (e2 (referencedFiles bodyS))
              (validateBodyContent bodyS st4)).errors := by
          rw [← hst, checkReferences_errors, checkReferences_errors]
          exact (((hperm (referencedFiles bodyS)).filter _).map _).append_left _
        have hpw : st1.warnings =
            (checkReferences fs sp (e2 (referencedFiles bodyS))
              (validateBodyContent bodyS st4)).warnings := by
          rw [← hst, checkReferences_warnings, checkReferences_warnings]
        have hpp : st1.passes.Perm
            (checkReferences fs sp (e2 (referencedFiles bodyS))
              (validateBodyContent bodyS st4)).passes := by
          rw [← hst, checkReferences_passes, checkReferences_passes]
          exact (((hperm (referencedFiles bodyS)).filter _).map _).append_left _
        refine ⟨checkReferences fs sp (e2 (referencedFiles bodyS))
            (validateBodyContent bodyS st4), ?_, hpe, hpw, hpp⟩
        have hbb2 : b1 = (checkReferences fs sp (e2 (referencedFiles bodyS))
            (validateBodyContent bodyS st4)).errors.isEmpty := by
          rw [← hbb]
          exact perm_isEmpty (by rw [hst]; exact hpe)
        rw [hbb2]

/-- Witness for `c9_amended`: both enumerations equal (`id`), on the
`contentTwoRefs` run. -/
theorem c9_amended_witness :
    ∃ st2 : VState,
      runValidator (fsWith spDemo contentTwoRefs) spDemo id = Except.ok (st2, false) ∧
      stTwoRefsA.errors.Perm st2.errors ∧ stTwoRefsA.warnings = st2.warnings ∧
      stTwoRefsA.passes.Perm st2.passes :=
  c9_amended (fsWith spDemo contentTwoRefs) spDemo id id
    (fun l => List.Perm.refl l) stTwoRefsA false rfl

set_option maxRecDepth 8192 in
/-- C9 counterexample: the claim promises byte-identical report content
on two runs over the same unmodified directory.  The file-reference
findings are emitted in the iteration order of a Python `set` of
strings, which the source text does not determine (string hashing is
salted per process); two legitimate enumerations of the same extracted
set — insertion order and its reverse — yield reports that differ as
strings. -/
theorem c9_counterexample :
    runValidator (fsWith spDemo contentTwoRefs) spDemo id =
      Except.ok (stTwoRefsA, false) ∧
    runValidator (fsWith spDemo contentTwoRefs) spDemo (fun l => l.reverse) =
      Except.ok (stTwoRefsB, false) ∧
    (∀ l : List String, (l.reverse).Perm l) ∧
    renderReport spDemo stTwoRefsA ≠ renderReport spDemo stTwoRefsB := by
  refine ⟨rfl, rfl, fun l => List.reverse_perm l, by decide⟩
